import Mathlib

/-!
Shallow embedding of the Skincare E-commerce backend (src/main.py, src/schemas.py).

The document store (MongoDB through the `database` adapter) is modelled as four
association lists keyed by store-assigned natural-number identifiers, together
with a counter supplying the next fresh identifier.  Monetary values (Python
floats) are modelled as rationals, quantities (Python ints) as integers.
Endpoints become pure functions from a `Store` to an `Except Err` result;
FastAPI `HTTPException`s become `Err` values carrying the status code and the
detail string.  Python raises before any store write on every error path, so an
error result leaves the store untouched.  External collaborators (bcrypt
hashing via passlib, user-supplied object-id strings) are abstracted: hashing
and verification are function parameters, identifiers are opaque naturals.
-/

namespace Skincare

/-- An HTTP error: status code and detail message (`HTTPException`). -/
structure Err where
  status : Nat
  detail : String
deriving DecidableEq, Repr

/-- `schemas.User`: one document of the `user` collection. -/
structure UserDoc where
  name : String
  email : String
  password_hash : String
  address : Option String := none
  phone : Option String := none
  is_active : Bool := true
deriving DecidableEq, Repr

/-- `schemas.Product`: one document of the `product` collection.
Pydantic enforces `price ≥ 0` (`Field(..., ge=0)`) at construction. -/
structure Product where
  title : String
  description : Option String := none
  price : ℚ
  category : String
  image_url : Option String := none
  in_stock : Bool := true
deriving DecidableEq, Repr

/-- `schemas.CartItem`: a product reference plus a quantity. -/
structure CartItem where
  product_id : Nat
  quantity : Int
deriving DecidableEq, Repr

/-- A document of the `cart` collection: `{"user_id": ..., "items": [...]}`. -/
structure CartDoc where
  user_id : String
  items : List CartItem
deriving DecidableEq, Repr

/-- `schemas.OrderItem`: product reference, quantity, unit price captured at
checkout time. -/
structure OrderItem where
  product_id : Nat
  quantity : Int
  price : ℚ
deriving DecidableEq, Repr

/-- `schemas.Order`: a document of the `order` collection. -/
structure OrderDoc where
  user_id : String
  items : List OrderItem
  total : ℚ
  status : String
deriving DecidableEq, Repr

/-- The whole document store: the four collections, each a list of
(identifier, document) pairs in insertion order, plus the next fresh id.
`find_one` is "first element matching the filter", as in MongoDB. -/
structure Store where
  users : List (Nat × UserDoc)
  products : List (Nat × Product)
  carts : List (Nat × CartDoc)
  orders : List (Nat × OrderDoc)
  nextId : Nat
deriving DecidableEq, Repr

/-- The empty, freshly configured store. -/
def initStore : Store := ⟨[], [], [], [], 0⟩

/-- `db["user"].find_one({"email": e})`: first user document with that email. -/
def findUserByEmail (users : List (Nat × UserDoc)) (email : String) :
    Option (Nat × UserDoc) :=
  users.find? (fun e => e.2.email == email)

/-- `db["product"].find_one({"_id": ObjectId(pid)})`. -/
def findProduct (products : List (Nat × Product)) (pid : Nat) : Option Product :=
  (products.find? (fun e => e.1 == pid)).map Prod.snd

/-- `db["cart"].find_one({"user_id": uid})`: first cart with that user id,
returned together with its store identifier (`_id`). -/
def findCart (carts : List (Nat × CartDoc)) (uid : String) :
    Option (Nat × CartDoc) :=
  carts.find? (fun e => e.2.user_id == uid)

/-- `db["cart"].update_one({"_id": cid}, {"$set": {"items": its}})`: replace
the item list of the first cart whose identifier is `cid`. -/
def updateCartItems : List (Nat × CartDoc) → Nat → List CartItem →
    List (Nat × CartDoc)
  | [], _, _ => []
  | e :: rest, cid, its =>
      if e.1 = cid then (e.1, { e.2 with items := its }) :: rest
      else e :: updateCartItems rest cid its

/-- Request body of `POST /api/products` (`ProductCreate`). -/
structure ProductCreate where
  title : String
  description : Option String := none
  price : ℚ
  category : String
  image_url : Option String := none
deriving DecidableEq, Repr

/-- `POST /api/auth/register` (`register` in main.py).  `hashF` abstracts
`pwd_context.hash`.  Returns the new user id together with name and email. -/
def register (hashF : String → String) (s : Store)
    (name email password : String) : Except Err (Store × Nat × String × String) :=
  match findUserByEmail s.users email with
  | some _ => .error ⟨400, "Email sudah terdaftar"⟩
  | none =>
      let doc : UserDoc := ⟨name, email, hashF password, none, none, true⟩
      .ok ({ s with users := s.users ++ [(s.nextId, doc)], nextId := s.nextId + 1 },
           s.nextId, name, email)

/-- `POST /api/auth/login` (`login` in main.py).  `verify` abstracts
`pwd_context.verify password password_hash`.  Success returns
(user id, name, email). -/
def login (verify : String → String → Bool) (s : Store)
    (email password : String) : Except Err (Nat × String × String) :=
  match findUserByEmail s.users email with
  | none => .error ⟨401, "Email atau password salah"⟩
  | some (uid, doc) =>
      if verify password doc.password_hash then .ok (uid, doc.name, doc.email)
      else .error ⟨401, "Email atau password salah"⟩

/-- `POST /api/products` (`create_product` in main.py).  The handler builds a
`schemas.Product` from the request; pydantic validation (`price ≥ 0`) raises
inside the handler on a negative price, which surfaces as an internal server
error before anything is stored. -/
def create_product (s : Store) (p : ProductCreate) : Except Err (Store × Nat) :=
  if p.price < 0 then .error ⟨500, "Internal Server Error"⟩
  else
    let prod : Product := ⟨p.title, p.description, p.price, p.category, p.image_url, true⟩
    .ok ({ s with products := s.products ++ [(s.nextId, prod)], nextId := s.nextId + 1 },
         s.nextId)

/-- The cart-update loop of `add_to_cart`: scan the item list for the product
id; on the first match increment its quantity and stop, otherwise append a new
item at the end. -/
def addLoop : List CartItem → Nat → Int → List CartItem
  | [], pid, qty => [⟨pid, qty⟩]
  | it :: rest, pid, qty =>
      if it.product_id == pid then { it with quantity := it.quantity + qty } :: rest
      else it :: addLoop rest pid qty

/-- `POST /api/cart/add` (`add_to_cart` in main.py): coerce the quantity to at
least 1, require the product to exist, then create the user's cart or update
its item list. -/
def add_to_cart (s : Store) (uid : String) (pid : Nat) (quantity : Int) :
    Except Err (Store × String) :=
  let qty := max 1 quantity
  match findProduct s.products pid with
  | none => .error ⟨404, "Produk tidak ditemukan"⟩
  | some _ =>
      match findCart s.carts uid with
      | none =>
          let cart : CartDoc := ⟨uid, [⟨pid, qty⟩]⟩
          .ok ({ s with carts := s.carts ++ [(s.nextId, cart)], nextId := s.nextId + 1 },
               "ok")
      | some (cid, cart) =>
          .ok ({ s with carts := updateCartItems s.carts cid (addLoop cart.items pid qty) },
               "ok")

/-- One enriched line of the `GET /api/cart/{user_id}` response. -/
structure CartLine where
  product_id : Nat
  title : String
  image_url : Option String
  price : ℚ
  quantity : Int
  subtotal : ℚ
deriving DecidableEq, Repr

/-- The response of `GET /api/cart/{user_id}`. -/
structure CartView where
  items : List CartLine
  total : ℚ
deriving DecidableEq, Repr

/-- The line built for a resolved cart item inside the `get_cart` loop. -/
def enrichLine (prod : Product) (it : CartItem) : CartLine :=
  ⟨it.product_id, prod.title, prod.image_url, prod.price, it.quantity,
   prod.price * (it.quantity : ℚ)⟩

/-- One iteration of the `get_cart` loop: skip the item when its product no
longer resolves, otherwise append the enriched line and add its subtotal. -/
def cartStep (products : List (Nat × Product)) (acc : List CartLine × ℚ)
    (it : CartItem) : List CartLine × ℚ :=
  match findProduct products it.product_id with
  | none => acc
  | some prod =>
      (acc.1 ++ [enrichLine prod it], acc.2 + prod.price * (it.quantity : ℚ))

/-- `GET /api/cart/{user_id}` (`get_cart` in main.py): no cart means an empty
view, otherwise rebuild each line from the current catalog. -/
def get_cart (s : Store) (uid : String) : CartView :=
  match findCart s.carts uid with
  | none => ⟨[], 0⟩
  | some (_, cart) =>
      let r := cart.items.foldl (cartStep s.products) ([], 0)
      ⟨r.1, r.2⟩

/-- One iteration of the `checkout` loop: skip the item when its product no
longer resolves, otherwise record an order item at the current price and add
price × quantity to the running total. -/
def checkoutStep (products : List (Nat × Product)) (acc : List OrderItem × ℚ)
    (it : CartItem) : List OrderItem × ℚ :=
  match findProduct products it.product_id with
  | none => acc
  | some prod =>
      (acc.1 ++ [⟨it.product_id, it.quantity, prod.price⟩],
       acc.2 + prod.price * (it.quantity : ℚ))

/-- `POST /api/checkout` (`checkout` in main.py): require a cart with a
non-empty item list, build the order from currently resolvable items, persist
it with status "pending", then clear the cart's item list.  Returns
(order id, total, "created"). -/
def checkout (s : Store) (uid : String) : Except Err (Store × Nat × ℚ × String) :=
  match findCart s.carts uid with
  | none => .error ⟨400, "Keranjang kosong"⟩
  | some (cid, cart) =>
      if cart.items.isEmpty then .error ⟨400, "Keranjang kosong"⟩
      else
        let r := cart.items.foldl (checkoutStep s.products) ([], 0)
        let ord : OrderDoc := ⟨uid, r.1, r.2, "pending"⟩
        let s1 : Store :=
          { s with orders := s.orders ++ [(s.nextId, ord)], nextId := s.nextId + 1 }
        let s2 : Store := { s1 with carts := updateCartItems s1.carts cid [] }
        .ok (s2, s.nextId, r.2, "created")

/-- Substring containment on character lists (Python `k in q`). -/
def subListOf : List Char → List Char → Bool
  | _, [] => true
  | [], _ :: _ => false
  | c :: rest, k => k.isPrefixOf (c :: rest) || subListOf rest k

/-- Case-sensitive substring containment on strings (Python `k in q`). -/
def strContains (q k : String) : Bool := subListOf q.data k.data

/-- Character-wise lower-casing (Python `str.lower()`). -/
def toLowerStr (s : String) : String := ⟨s.data.map Char.toLower⟩

/-- The five fixed answers of the chat responder. -/
def ans_acne : String :=
  "Untuk masalah jerawat, gunakan pembersih lembut, toner BHA, dan pelembap non-comedogenic. Tambahkan serum dengan niacinamide."

def ans_dull : String :=
  "Kulit kusam? Coba exfoliasi AHA 2-3x/minggu dan serum vitamin C pagi hari, selalu gunakan sunscreen."

def ans_dry : String :=
  "Kulit kering? Gunakan cleanser lembut, hydrating toner, serum hyaluronic acid, dan pelembap occlusive."

def ans_oily : String :=
  "Kulit berminyak? Pilih gel moisturizer, hindari cleanser terlalu keras, dan gunakan niacinamide + zinc."

def ans_fallback : String :=
  "Ceritakan masalah kulit Anda (jerawat, kusam, kering, berminyak) dan saya akan bantu rekomendasi rutinitas."

/-- `POST /api/chat` (`chat` in main.py): lower-case the question, then walk
the fixed if/elif chain of keyword sets. -/
def chat (question : String) : String :=
  let q := toLowerStr question
  if ["jerawat", "acne", "beruntusan"].any (fun k => strContains q k) then ans_acne
  else if ["kusam", "dull", "pencerah"].any (fun k => strContains q k) then ans_dull
  else if ["kering", "dry", "dehidrasi"].any (fun k => strContains q k) then ans_dry
  else if ["berminyak", "oily", "minyak"].any (fun k => strContains q k) then ans_oily
  else ans_fallback

/-- The responder as the spec describes it: an ordered list of
(keyword set, answer) rules tried in priority order with a default fallback. -/
def chatRules : List (List String × String) :=
  [(["jerawat", "acne", "beruntusan"], ans_acne),
   (["kusam", "dull", "pencerah"], ans_dull),
   (["kering", "dry", "dehidrasi"], ans_dry),
   (["berminyak", "oily", "minyak"], ans_oily)]

/-- Evaluate an ordered rule list on a question: first matching keyword set
wins, no match falls through to the generic prompt. -/
def applyRules (q : String) : List (List String × String) → String
  | [] => ans_fallback
  | (ks, a) :: rest =>
      if ks.any (fun k => strContains (toLowerStr q) k) then a else applyRules q rest

/-- The mutating requests, for reasoning about reachable store states. -/
inductive Op where
  | registerOp (name email password : String)
  | createProductOp (p : ProductCreate)
  | addToCartOp (uid : String) (pid : Nat) (quantity : Int)
  | checkoutOp (uid : String)

/-- Run one request against the store: an error response leaves the store as
it was (every handler raises before its first write on its error paths). -/
def runOp (hashF : String → String) (s : Store) : Op → Store
  | .registerOp n e p =>
      match register hashF s n e p with
      | .ok (s2, _) => s2
      | .error _ => s
  | .createProductOp p =>
      match create_product s p with
      | .ok (s2, _) => s2
      | .error _ => s
  | .addToCartOp u pid q =>
      match add_to_cart s u pid q with
      | .ok (s2, _) => s2
      | .error _ => s
  | .checkoutOp u =>
      match checkout s u with
      | .ok (s2, _) => s2
      | .error _ => s

/-- Run a sequence of requests starting from the empty store. -/
def runOps (hashF : String → String) (ops : List Op) : Store :=
  ops.foldl (runOp hashF) initStore

/-- The order items the checkout loop produces: one per cart item whose
product still resolves, at the current catalog price. -/
def resolvedOrderItems (ps : List (Nat × Product)) (l : List CartItem) :
    List OrderItem :=
  l.filterMap (fun it =>
    (findProduct ps it.product_id).map (fun prod =>
      (⟨it.product_id, it.quantity, prod.price⟩ : OrderItem)))

/-- Sum of current price × quantity over the cart items whose product still
resolves. -/
def resolvedSum (ps : List (Nat × Product)) (l : List CartItem) : ℚ :=
  (l.filterMap (fun it =>
    (findProduct ps it.product_id).map (fun prod =>
      prod.price * (it.quantity : ℚ)))).sum

/-- The enriched lines the get_cart loop produces: one per cart item whose
product still resolves. -/
def resolvedLines (ps : List (Nat × Product)) (l : List CartItem) :
    List CartLine :=
  l.filterMap (fun it =>
    (findProduct ps it.product_id).map (fun prod => enrichLine prod it))

/-- Quantity held by the first cart entry for a product id (0 when absent). -/
def listQty (items : List CartItem) (pid : Nat) : Int :=
  match items.find? (fun it => it.product_id == pid) with
  | some it => it.quantity
  | none => 0

/-- Invariant: every stored product has a non-negative price. -/
def priceInv (s : Store) : Prop := ∀ e ∈ s.products, 0 ≤ e.2.price

/-- Invariant: every stored cart has at most one entry per product id. -/
def cartInv (s : Store) : Prop :=
  ∀ e ∈ s.carts, ((e.2.items.map CartItem.product_id).Nodup)

/-! ### Loop characterizations -/

theorem checkout_foldl (ps : List (Nat × Product)) (l : List CartItem) :
    ∀ acc : List OrderItem × ℚ,
      l.foldl (checkoutStep ps) acc =
        (acc.1 ++ resolvedOrderItems ps l, acc.2 + resolvedSum ps l) := by
  induction l with
  | nil => intro acc; simp [resolvedOrderItems, resolvedSum]
  | cons it rest ih =>
      intro acc
      rcases hp : findProduct ps it.product_id with _ | prod
      · simp [List.foldl_cons, checkoutStep, hp, resolvedOrderItems,
              resolvedSum, List.filterMap_cons, ih]
      · simp only [List.foldl_cons, checkoutStep, hp, ih, resolvedOrderItems,
              resolvedSum, List.filterMap_cons, Option.map_some',
              Prod.mk.injEq, List.sum_cons]
        constructor
        · simp [List.append_assoc]
        · ring

theorem getcart_foldl (ps : List (Nat × Product)) (l : List CartItem) :
    ∀ acc : List CartLine × ℚ,
      l.foldl (cartStep ps) acc =
        (acc.1 ++ resolvedLines ps l,
         acc.2 + ((resolvedLines ps l).map
           (fun ln => ln.price * (ln.quantity : ℚ))).sum) := by
  induction l with
  | nil => intro acc; simp [resolvedLines]
  | cons it rest ih =>
      intro acc
      rcases hp : findProduct ps it.product_id with _ | prod
      · simp [List.foldl_cons, cartStep, hp, resolvedLines,
              List.filterMap_cons, ih]
      · simp only [List.foldl_cons, cartStep, hp, ih, resolvedLines,
              List.filterMap_cons, Option.map_some', Prod.mk.injEq,
              List.map_cons, List.sum_cons, enrichLine]
        constructor
        · simp [List.append_assoc]
        · ring

theorem resolvedSum_eq_map_sum (ps : List (Nat × Product)) (l : List CartItem) :
    resolvedSum ps l =
      (l.map (fun it =>
        ((findProduct ps it.product_id).elim 0 Product.price) *
          (it.quantity : ℚ))).sum := by
  induction l with
  | nil => simp [resolvedSum]
  | cons it rest ih =>
      have ihx := ih
      simp only [resolvedSum] at ihx ⊢
      rcases hp : findProduct ps it.product_id with _ | prod
      · simpa [List.filterMap_cons, hp] using ihx
      · simp only [List.filterMap_cons, hp, Option.map_some', List.map_cons,
          List.sum_cons, Option.elim_some]
        rw [ihx]

/-! ### find / update lemmas for carts -/

theorem findCart_updateCartItems (carts : List (Nat × CartDoc))
    (uid : String) (cid : Nat) (c : CartDoc) (its : List CartItem)
    (hids : (carts.map Prod.fst).Nodup)
    (h : findCart carts uid = some (cid, c)) :
    findCart (updateCartItems carts cid its) uid =
      some (cid, { c with items := its }) := by
  induction carts with
  | nil => simp [findCart] at h
  | cons e rest ih =>
      rcases hids' : e.2.user_id == uid with _ | _
      · have hne : e.1 ≠ cid := by
          have hfind : findCart rest uid = some (cid, c) := by
            simpa [findCart, List.find?_cons, hids'] using h
          have hmem : (cid, c) ∈ rest := by
            exact List.mem_of_find?_eq_some hfind
          have : cid ∈ rest.map Prod.fst := List.mem_map_of_mem Prod.fst hmem
          intro heq
          exact (List.nodup_cons.mp (by simpa using hids)).1 (heq ▸ this)
        have hfind : findCart rest uid = some (cid, c) := by
          simpa [findCart, List.find?_cons, hids'] using h
        have hrest := ih (List.nodup_cons.mp (by simpa using hids)).2 hfind
        simp [updateCartItems, hne, findCart, List.find?_cons, hids'] at hrest ⊢
        exact hrest
      · have he : e = (cid, c) := by
          simpa [findCart, List.find?_cons, hids'] using h
        subst he
        simp [updateCartItems, findCart, List.find?_cons, hids']

theorem updateCartItems_mem (carts : List (Nat × CartDoc)) (cid : Nat)
    (its : List CartItem) :
    ∀ x ∈ updateCartItems carts cid its, x ∈ carts ∨ x.2.items = its := by
  induction carts with
  | nil => intro x hx; simp [updateCartItems] at hx
  | cons e rest ih =>
      intro x hx
      by_cases hc : e.1 = cid
      · simp only [updateCartItems, if_pos hc, List.mem_cons] at hx
        rcases hx with hx | hx
        · right; simp [hx]
        · left; exact List.mem_cons_of_mem _ hx
      · simp only [updateCartItems, if_neg hc, List.mem_cons] at hx
        rcases hx with hx | hx
        · left; simp [hx]
        · rcases ih x hx with h1 | h1
          · left; exact List.mem_cons_of_mem _ h1
          · right; exact h1

/-! ### addLoop lemmas -/

theorem addLoop_map_mem (l : List CartItem) (pid : Nat) (qty : Int)
    (h : pid ∈ l.map CartItem.product_id) :
    (addLoop l pid qty).map CartItem.product_id =
      l.map CartItem.product_id := by
  induction l with
  | nil => simp at h
  | cons it rest ih =>
      by_cases hc : it.product_id = pid
      · simp [addLoop, hc]
      · have hm : pid ∈ rest.map CartItem.product_id := by
          rw [List.map_cons] at h
          rcases List.mem_cons.mp h with h1 | h1
          · exact absurd h1.symm hc
          · exact h1
        simp [addLoop, hc, ih hm]

theorem addLoop_map_not_mem (l : List CartItem) (pid : Nat) (qty : Int)
    (h : pid ∉ l.map CartItem.product_id) :
    (addLoop l pid qty).map CartItem.product_id =
      l.map CartItem.product_id ++ [pid] := by
  induction l with
  | nil => simp [addLoop]
  | cons it rest ih =>
      have hc : it.product_id ≠ pid := by
        intro heq; exact h (by simp [heq])
      have hm : pid ∉ rest.map CartItem.product_id := by
        intro hmem; exact h (by simp [hmem])
      simp [addLoop, hc, ih hm]

theorem addLoop_nodup (l : List CartItem) (pid : Nat) (qty : Int)
    (h : (l.map CartItem.product_id).Nodup) :
    ((addLoop l pid qty).map CartItem.product_id).Nodup := by
  by_cases hm : pid ∈ l.map CartItem.product_id
  · rw [addLoop_map_mem l pid qty hm]; exact h
  · rw [addLoop_map_not_mem l pid qty hm]
    refine List.Nodup.append h (List.nodup_singleton pid) ?_
    intro a ha hb
    rw [List.mem_singleton] at hb
    exact hm (hb ▸ ha)

theorem addLoop_length_mem (l : List CartItem) (pid : Nat) (qty : Int)
    (h : pid ∈ l.map CartItem.product_id) :
    (addLoop l pid qty).length = l.length := by
  have := addLoop_map_mem l pid qty h
  have hlen := congrArg List.length this
  simpa using hlen

theorem listQty_addLoop_self (l : List CartItem) (pid : Nat) (qty : Int) :
    listQty (addLoop l pid qty) pid = listQty l pid + qty := by
  induction l with
  | nil => simp [addLoop, listQty]
  | cons it rest ih =>
      by_cases hc : it.product_id = pid
      · simp [addLoop, hc, listQty, List.find?_cons]
      · simp only [addLoop, beq_iff_eq, hc, if_false, listQty,
          List.find?_cons] at ih ⊢
        simp only [show (it.product_id == pid) = false from by
          simpa using hc]
        exact ih

theorem listQty_addLoop_other (l : List CartItem) (pid : Nat) (qty : Int)
    (p : Nat) (hne : p ≠ pid) :
    listQty (addLoop l pid qty) p = listQty l p := by
  induction l with
  | nil =>
      simp [addLoop, listQty, List.find?_cons, show (pid == p) = false from by
        simpa using fun h => hne h.symm]
  | cons it rest ih =>
      by_cases hc : it.product_id = pid
      · have hpp : (pid == p) = false := by
          simpa using fun hh => hne hh.symm
        simp [addLoop, hc, listQty, List.find?_cons, hpp]
      · rcases hcp : it.product_id == p with _ | _
        · simp only [addLoop, beq_iff_eq, hc, if_false, listQty,
            List.find?_cons, hcp] at ih ⊢
          exact ih
        · simp [addLoop, hc, listQty, List.find?_cons, hcp]

/-! ### Endpoint effect lemmas -/

theorem register_ok_effect (hashF : String → String) (s : Store)
    (n e p : String) (s2 : Store) (r : Nat × String × String)
    (h : register hashF s n e p = .ok (s2, r)) :
    s2.products = s.products ∧ s2.carts = s.carts := by
  rw [register] at h
  rcases hf : findUserByEmail s.users e with _ | u
  · rw [hf] at h
    simp only [Except.ok.injEq, Prod.mk.injEq] at h
    refine ⟨?_, ?_⟩ <;> rw [← h.1]
  · rw [hf] at h; simp at h

theorem create_product_ok_effect (s : Store) (p : ProductCreate) (s2 : Store)
    (pid : Nat) (h : create_product s p = .ok (s2, pid)) :
    0 ≤ p.price ∧
    s2.products = s.products ++
      [(s.nextId, ⟨p.title, p.description, p.price, p.category, p.image_url, true⟩)] ∧
    s2.carts = s.carts ∧ pid = s.nextId := by
  rw [create_product] at h
  by_cases hlt : p.price < 0
  · rw [if_pos hlt] at h; simp at h
  · rw [if_neg hlt] at h
    simp only [Except.ok.injEq, Prod.mk.injEq] at h
    refine ⟨le_of_not_lt hlt, ?_, ?_, h.2.symm⟩
    · rw [← h.1]
    · rw [← h.1]

theorem add_to_cart_ok_effect (s : Store) (uid : String) (pid : Nat) (q : Int)
    (s2 : Store) (r : String) (h : add_to_cart s uid pid q = .ok (s2, r)) :
    s2.products = s.products ∧
    ((findCart s.carts uid = none ∧
        s2.carts = s.carts ++ [(s.nextId, ⟨uid, [⟨pid, max 1 q⟩]⟩)]) ∨
      (∃ cid cart, findCart s.carts uid = some (cid, cart) ∧
        s2.carts = updateCartItems s.carts cid
          (addLoop cart.items pid (max 1 q)))) := by
  rw [add_to_cart] at h
  rcases hp : findProduct s.products pid with _ | prod
  · rw [hp] at h; simp at h
  · rw [hp] at h
    rcases hc : findCart s.carts uid with _ | ⟨cid, cart⟩
    · rw [hc] at h
      simp only [Except.ok.injEq, Prod.mk.injEq] at h
      exact ⟨by rw [← h.1], Or.inl ⟨rfl, by rw [← h.1]⟩⟩
    · rw [hc] at h
      simp only [Except.ok.injEq, Prod.mk.injEq] at h
      exact ⟨by rw [← h.1], Or.inr ⟨cid, cart, rfl, by rw [← h.1]⟩⟩

theorem checkout_ok_effect (s : Store) (uid : String) (s2 : Store)
    (r : Nat × ℚ × String) (h : checkout s uid = .ok (s2, r)) :
    s2.products = s.products ∧
    ∃ cid cart, findCart s.carts uid = some (cid, cart) ∧
      s2.carts = updateCartItems s.carts cid [] := by
  rw [checkout] at h
  split at h
  · simp at h
  next cid cart heq =>
    split at h
    · simp at h
    · simp only [Except.ok.injEq, Prod.mk.injEq] at h
      exact ⟨by rw [← h.1], cid, cart, heq, by rw [← h.1]⟩

/-! ### Invariant preservation -/

theorem priceInv_runOp (hashF : String → String) (s : Store) (op : Op)
    (hs : priceInv s) : priceInv (runOp hashF s op) := by
  cases op with
  | registerOp n e p =>
      rcases hres : register hashF s n e p with err | ⟨s2, r⟩
      · simpa [runOp, hres] using hs
      · have := (register_ok_effect hashF s n e p s2 r hres).1
        simp only [runOp, hres, priceInv, this]
        exact hs
  | createProductOp p =>
      rcases hres : create_product s p with err | ⟨s2, pid⟩
      · simpa [runOp, hres] using hs
      · obtain ⟨hpos, hprods, -, -⟩ := create_product_ok_effect s p s2 pid hres
        simp only [runOp, hres, priceInv, hprods]
        intro e he
        rcases List.mem_append.mp he with he | he
        · exact hs e he
        · rw [List.mem_singleton] at he
          subst he
          exact hpos
  | addToCartOp u pid q =>
      rcases hres : add_to_cart s u pid q with err | ⟨s2, r⟩
      · simpa [runOp, hres] using hs
      · have := (add_to_cart_ok_effect s u pid q s2 r hres).1
        simp only [runOp, hres, priceInv, this]
        exact hs
  | checkoutOp u =>
      rcases hres : checkout s u with err | ⟨s2, r⟩
      · simpa [runOp, hres] using hs
      · have := (checkout_ok_effect s u s2 r hres).1
        simp only [runOp, hres, priceInv, this]
        exact hs

theorem cartInv_runOp (hashF : String → String) (s : Store) (op : Op)
    (hs : cartInv s) : cartInv (runOp hashF s op) := by
  cases op with
  | registerOp n e p =>
      rcases hres : register hashF s n e p with err | ⟨s2, r⟩
      · simpa [runOp, hres] using hs
      · have := (register_ok_effect hashF s n e p s2 r hres).2
        simp only [runOp, hres, cartInv, this]
        exact hs
  | createProductOp p =>
      rcases hres : create_product s p with err | ⟨s2, pid⟩
      · simpa [runOp, hres] using hs
      · obtain ⟨-, -, hcarts, -⟩ := create_product_ok_effect s p s2 pid hres
        simp only [runOp, hres, cartInv, hcarts]
        exact hs
  | addToCartOp u pid q =>
      rcases hres : add_to_cart s u pid q with err | ⟨s2, r⟩
      · simpa [runOp, hres] using hs
      · obtain ⟨-, hcase⟩ := add_to_cart_ok_effect s u pid q s2 r hres
        simp only [runOp, hres, cartInv]
        rcases hcase with ⟨-, hcarts⟩ | ⟨cid, cart, hfind, hcarts⟩
        · rw [hcarts]
          intro e he
          rcases List.mem_append.mp he with he | he
          · exact hs e he
          · rw [List.mem_singleton] at he
            subst he
            simp
        · rw [hcarts]
          intro e he
          rcases updateCartItems_mem s.carts cid
              (addLoop cart.items pid (max 1 q)) e he with he2 | he2
          · exact hs e he2
          · rw [he2]
            exact addLoop_nodup cart.items pid (max 1 q)
              (hs (cid, cart) (List.mem_of_find?_eq_some hfind))
  | checkoutOp u =>
      rcases hres : checkout s u with err | ⟨s2, r⟩
      · simpa [runOp, hres] using hs
      · obtain ⟨-, cid, cart, hfind, hcarts⟩ := checkout_ok_effect s u s2 r hres
        simp only [runOp, hres, cartInv]
        rw [hcarts]
        intro e he
        rcases updateCartItems_mem s.carts cid [] e he with he2 | he2
        · exact hs e he2
        · rw [he2]; simp

theorem priceInv_foldl (hashF : String → String) (ops : List Op) :
    ∀ s : Store, priceInv s → priceInv (ops.foldl (runOp hashF) s) := by
  induction ops with
  | nil => intro s hs; simpa using hs
  | cons op rest ih =>
      intro s hs
      rw [List.foldl_cons]
      exact ih _ (priceInv_runOp hashF s op hs)

theorem cartInv_foldl (hashF : String → String) (ops : List Op) :
    ∀ s : Store, cartInv s → cartInv (ops.foldl (runOp hashF) s) := by
  induction ops with
  | nil => intro s hs; simpa using hs
  | cons op rest ih =>
      intro s hs
      rw [List.foldl_cons]
      exact ih _ (cartInv_runOp hashF s op hs)

theorem priceInv_runOps (hashF : String → String) (ops : List Op) :
    priceInv (runOps hashF ops) := by
  refine priceInv_foldl hashF ops initStore ?_
  intro e he
  simp [initStore] at he

theorem cartInv_runOps (hashF : String → String) (ops : List Op) :
    cartInv (runOps hashF ops) := by
  refine cartInv_foldl hashF ops initStore ?_
  intro e he
  simp [initStore] at he

/-! ### Claims -/

/-- Claim C2: checkout on a nonexistent cart, or on a cart whose item list is
empty, fails with HTTP 400 "Keranjang kosong", and the store — in particular
the order collection — is left unchanged. -/
theorem claim_C2 (s : Store) (uid : String)
    (h : findCart s.carts uid = none ∨
      ∃ cid c, findCart s.carts uid = some (cid, c) ∧ c.items = []) :
    checkout s uid = .error ⟨400, "Keranjang kosong"⟩ ∧
    ∀ hashF, runOp hashF s (Op.checkoutOp uid) = s := by
  have herr : checkout s uid = .error ⟨400, "Keranjang kosong"⟩ := by
    rcases h with h | ⟨cid, c, h, hknil⟩
    · rw [checkout, h]
    · rw [checkout, h]
      simp [hknil]
  exact ⟨herr, fun hashF => by simp [runOp, herr]⟩

/-- Witness for C2 on a store holding one cart with an empty item list. -/
theorem claim_C2_witness :
    checkout ⟨[], [], [(0, ⟨"u", []⟩)], [], 1⟩ "u" =
      .error ⟨400, "Keranjang kosong"⟩ ∧
    ∀ hashF, runOp hashF ⟨[], [], [(0, ⟨"u", []⟩)], [], 1⟩
      (Op.checkoutOp "u") = ⟨[], [], [(0, ⟨"u", []⟩)], [], 1⟩ :=
  claim_C2 ⟨[], [], [(0, ⟨"u", []⟩)], [], 1⟩ "u"
    (Or.inr ⟨0, ⟨"u", []⟩, rfl, rfl⟩)

/-- Claim C3: add_to_cart with a product id that does not resolve fails with
HTTP 404 "Produk tidak ditemukan" and leaves the store — in particular the
cart collection — unchanged. -/
theorem claim_C3 (s : Store) (uid : String) (pid : Nat) (q : Int)
    (h : findProduct s.products pid = none) :
    add_to_cart s uid pid q = .error ⟨404, "Produk tidak ditemukan"⟩ ∧
    ∀ hashF, runOp hashF s (Op.addToCartOp uid pid q) = s := by
  have herr : add_to_cart s uid pid q =
      .error ⟨404, "Produk tidak ditemukan"⟩ := by
    rw [add_to_cart, h]
  exact ⟨herr, fun hashF => by simp [runOp, herr]⟩

/-- Witness for C3 on the empty store, where no product resolves. -/
theorem claim_C3_witness :
    add_to_cart initStore "u" 5 1 = .error ⟨404, "Produk tidak ditemukan"⟩ ∧
    ∀ hashF, runOp hashF initStore (Op.addToCartOp "u" 5 1) = initStore :=
  claim_C3 initStore "u" 5 1 rfl

/-- Claim C5: get_cart for a user with no cart record returns the empty view
(items = [], total = 0) instead of an error. -/
theorem claim_C5 (s : Store) (uid : String)
    (h : findCart s.carts uid = none) :
    get_cart s uid = ⟨[], 0⟩ := by
  rw [get_cart, h]

/-- Witness for C5 on the empty store. -/
theorem claim_C5_witness : get_cart initStore "u" = ⟨[], 0⟩ :=
  claim_C5 initStore "u" rfl

/-- Claim C8: a login with an unknown email and a login with a known email but
a password failing hash verification produce the same outcome: HTTP 401 with
the identical message "Email atau password salah". -/
theorem claim_C8 (verify : String → String → Bool) (s : Store)
    (e1 p1 e2 p2 : String) (uid : Nat) (doc : UserDoc)
    (h1 : findUserByEmail s.users e1 = none)
    (h2 : findUserByEmail s.users e2 = some (uid, doc))
    (h3 : verify p2 doc.password_hash = false) :
    login verify s e1 p1 = .error ⟨401, "Email atau password salah"⟩ ∧
    login verify s e2 p2 = .error ⟨401, "Email atau password salah"⟩ ∧
    login verify s e1 p1 = login verify s e2 p2 := by
  have l1 : login verify s e1 p1 = .error ⟨401, "Email atau password salah"⟩ := by
    rw [login, h1]
  have l2 : login verify s e2 p2 = .error ⟨401, "Email atau password salah"⟩ := by
    rw [login, h2]
    simp [h3]
  exact ⟨l1, l2, l1.trans l2.symm⟩

/-- Witness for C8: one stored user, a login with an absent email and a login
with the stored email but a non-verifying password. -/
theorem claim_C8_witness :
    login (fun p h => p == h) ⟨[(0, ⟨"n", "b", "pw", none, none, true⟩)], [], [], [], 1⟩
        "a" "x" = .error ⟨401, "Email atau password salah"⟩ ∧
    login (fun p h => p == h) ⟨[(0, ⟨"n", "b", "pw", none, none, true⟩)], [], [], [], 1⟩
        "b" "wrong" = .error ⟨401, "Email atau password salah"⟩ ∧
    login (fun p h => p == h) ⟨[(0, ⟨"n", "b", "pw", none, none, true⟩)], [], [], [], 1⟩
        "a" "x" =
      login (fun p h => p == h) ⟨[(0, ⟨"n", "b", "pw", none, none, true⟩)], [], [], [], 1⟩
        "b" "wrong" :=
  claim_C8 (fun p h => p == h)
    ⟨[(0, ⟨"n", "b", "pw", none, none, true⟩)], [], [], [], 1⟩
    "a" "x" "b" "wrong" 0 ⟨"n", "b", "pw", none, none, true⟩
    (by decide) (by decide) (by decide)

/-- Claim C7: the chat responder evaluates the fixed keyword sets in the fixed
priority order (acne, dullness, dryness, oiliness) by case-insensitive
substring match and returns the first matching set's answer; any question
containing "jerawat" (after lower-casing) gets the acne answer regardless of
other keywords; a question matching no keyword gets the generic fallback. -/
theorem claim_C7 :
    (∀ q : String, chat q = applyRules q chatRules) ∧
    (∀ q : String, strContains (toLowerStr q) "jerawat" = true → chat q = ans_acne) ∧
    (∀ q : String,
      (chatRules.all (fun rule => rule.1.all
        (fun k => !strContains (toLowerStr q) k))) = true →
      chat q = ans_fallback) := by
  refine ⟨fun q => rfl, fun q hq => ?_, fun q hq => ?_⟩
  · simp [chat, List.any_cons, hq]
  · simp only [chatRules, List.all_cons, List.all_nil, Bool.and_true,
      Bool.and_eq_true, Bool.not_eq_true'] at hq
    obtain ⟨⟨a1, a2, a3⟩, ⟨b1, b2, b3⟩, ⟨c1, c2, c3⟩, d1, d2, d3⟩ := hq
    simp [chat, List.any_cons, a1, a2, a3, b1, b2, b3, c1, c2, c3, d1, d2, d3]

/-- Witness for C7: a question holding both "jerawat" and "kusam" gets the
acne answer; a question with no keyword gets the fallback. -/
theorem claim_C7_witness :
    chat "Kulitku kusam dan ada jerawat" = ans_acne ∧
    chat "halo" = ans_fallback :=
  ⟨claim_C7.2.1 "Kulitku kusam dan ada jerawat" (by decide),
   claim_C7.2.2 "halo" (by decide)⟩

/-- Claim C9: every product ever stored has a non-negative price: any reachable
store satisfies the price invariant, create_product succeeds (200 with the new
product id) whenever the requested price is ≥ 0, and a request with a negative
price errors out before storing anything. -/
theorem claim_C9 :
    (∀ (hashF : String → String) (ops : List Op),
      ∀ e ∈ (runOps hashF ops).products, 0 ≤ e.2.price) ∧
    (∀ (s : Store) (p : ProductCreate), 0 ≤ p.price →
      ∃ s2, create_product s p = .ok (s2, s.nextId)) ∧
    (∀ (s : Store) (p : ProductCreate) (hashF : String → String), p.price < 0 →
      create_product s p = .error ⟨500, "Internal Server Error"⟩ ∧
      runOp hashF s (Op.createProductOp p) = s) := by
  refine ⟨fun hashF ops => priceInv_runOps hashF ops, ?_, ?_⟩
  · intro s p hpos
    exact ⟨{ s with
        products := s.products ++
          [(s.nextId, ⟨p.title, p.description, p.price, p.category, p.image_url, true⟩)],
        nextId := s.nextId + 1 },
      by rw [create_product, if_neg (not_lt.mpr hpos)]⟩
  · intro s p hashF hneg
    have herr : create_product s p = .error ⟨500, "Internal Server Error"⟩ := by
      rw [create_product, if_pos hneg]
    exact ⟨herr, by simp [runOp, herr]⟩

/-- Witness for C9: creating a product at price 10 on the empty store
succeeds, creating one at price -1 fails and leaves the store unchanged. -/
theorem claim_C9_witness :
    (∃ s2, create_product initStore ⟨"A", none, 10, "c", none⟩ =
      .ok (s2, initStore.nextId)) ∧
    (create_product initStore ⟨"A", none, -1, "c", none⟩ =
        .error ⟨500, "Internal Server Error"⟩ ∧
      runOp id initStore (Op.createProductOp ⟨"A", none, -1, "c", none⟩) =
        initStore) :=
  ⟨claim_C9.2.1 initStore ⟨"A", none, 10, "c", none⟩ (by norm_num),
   claim_C9.2.2 initStore ⟨"A", none, -1, "c", none⟩ id (by norm_num)⟩

/-- Claim C4: every cart reachable by any request sequence has at most one
entry per product id, and add_to_cart on a product already in the cart
increments that entry's quantity by the requested amount (for requested
quantity ≥ 1) instead of appending a second line item: the item list keeps its
length, the quantity at that product id grows by the request, and every other
product id keeps its quantity. -/
theorem claim_C4 :
    (∀ (hashF : String → String) (ops : List Op),
      ∀ e ∈ (runOps hashF ops).carts,
        ((e.2.items.map CartItem.product_id).Nodup)) ∧
    (∀ (s : Store) (uid : String) (pid : Nat) (q : Int) (cid : Nat)
        (cart : CartDoc) (prod : Product),
      (s.carts.map Prod.fst).Nodup →
      findProduct s.products pid = some prod →
      findCart s.carts uid = some (cid, cart) →
      pid ∈ cart.items.map CartItem.product_id →
      1 ≤ q →
      ∃ s2, add_to_cart s uid pid q = .ok (s2, "ok") ∧
        findCart s2.carts uid =
          some (cid, ⟨cart.user_id, addLoop cart.items pid q⟩) ∧
        (addLoop cart.items pid q).length = cart.items.length ∧
        listQty (addLoop cart.items pid q) pid = listQty cart.items pid + q ∧
        ∀ p2, p2 ≠ pid →
          listQty (addLoop cart.items pid q) p2 = listQty cart.items p2) := by
  refine ⟨fun hashF ops => cartInv_runOps hashF ops, ?_⟩
  intro s uid pid q cid cart prod hids hprod hfind hmem hq
  have hmax : max 1 q = q := max_eq_right hq
  have hok : add_to_cart s uid pid q =
      .ok ({ s with
        carts := updateCartItems s.carts cid (addLoop cart.items pid q) },
        "ok") := by
    rw [add_to_cart, hprod, hfind, hmax]
  refine ⟨_, hok, ?_, addLoop_length_mem cart.items pid q hmem,
    listQty_addLoop_self cart.items pid q,
    fun p2 hp2 => listQty_addLoop_other cart.items pid q p2 hp2⟩
  exact findCart_updateCartItems s.carts uid cid cart
    (addLoop cart.items pid q) hids hfind

/-- Witness for C4: a cart holding product 0 at quantity 2; adding quantity 3
of the same product yields one line of quantity 5. -/
theorem claim_C4_witness :
    ∃ s2, add_to_cart
        ⟨[], [(0, ⟨"A", none, 10, "c", none, true⟩)],
         [(7, ⟨"u", [⟨0, 2⟩]⟩)], [], 8⟩ "u" 0 3 = .ok (s2, "ok") ∧
      findCart s2.carts "u" =
        some (7, ⟨"u", addLoop [⟨0, 2⟩] 0 3⟩) ∧
      (addLoop [⟨0, 2⟩] 0 3).length = ([⟨0, 2⟩] : List CartItem).length ∧
      listQty (addLoop [⟨0, 2⟩] 0 3) 0 = listQty [⟨0, 2⟩] 0 + 3 ∧
      ∀ p2, p2 ≠ 0 →
        listQty (addLoop [⟨0, 2⟩] 0 3) p2 = listQty [⟨0, 2⟩] p2 :=
  claim_C4.2 ⟨[], [(0, ⟨"A", none, 10, "c", none, true⟩)],
      [(7, ⟨"u", [⟨0, 2⟩]⟩)], [], 8⟩ "u" 0 3 7 ⟨"u", [⟨0, 2⟩]⟩
    ⟨"A", none, 10, "c", none, true⟩
    (by decide) rfl rfl (by decide) (by decide)

/-- Claim C6: get_cart drops every cart item whose product id no longer
resolves: the returned lines are exactly the enrichments of the resolvable
items, the total is the sum of price × quantity over exactly the returned
lines, every returned line's product resolves, and no line is returned for an
item whose product is gone. -/
theorem claim_C6 (s : Store) (uid : String) (cid : Nat) (cart : CartDoc)
    (hfind : findCart s.carts uid = some (cid, cart)) :
    (get_cart s uid).items = resolvedLines s.products cart.items ∧
    (get_cart s uid).total =
      ((get_cart s uid).items.map (fun ln => ln.price * (ln.quantity : ℚ))).sum ∧
    (∀ ln ∈ (get_cart s uid).items,
      (findProduct s.products ln.product_id).isSome = true) ∧
    (∀ it ∈ cart.items, findProduct s.products it.product_id = none →
      ∀ ln ∈ (get_cart s uid).items, ln.product_id ≠ it.product_id) := by
  have hgc : get_cart s uid =
      ⟨resolvedLines s.products cart.items,
       ((resolvedLines s.products cart.items).map
         (fun ln => ln.price * (ln.quantity : ℚ))).sum⟩ := by
    simp only [get_cart, hfind]
    rw [getcart_foldl s.products cart.items ([], 0)]
    simp
  have hmemf : ∀ ln ∈ resolvedLines s.products cart.items,
      (findProduct s.products ln.product_id).isSome = true := by
    intro ln hln
    simp only [resolvedLines] at hln
    obtain ⟨it, hit, hsome⟩ := List.mem_filterMap.mp hln
    rcases hp : findProduct s.products it.product_id with _ | prod
    · rw [hp] at hsome; simp at hsome
    · rw [hp] at hsome
      simp only [Option.map_some', Option.some.injEq] at hsome
      rw [← hsome]
      simp [enrichLine, hp]
  refine ⟨by rw [hgc], by rw [hgc], ?_, ?_⟩
  · intro ln hln
    rw [hgc] at hln
    exact hmemf ln hln
  · intro it hit hnone ln hln heq
    rw [hgc] at hln
    have hsome := hmemf ln hln
    rw [heq, hnone] at hsome
    simp at hsome

/-- Witness for C6: a cart holding an unresolvable item (product 5) and a
resolvable one (product 1). -/
theorem claim_C6_witness :
    (get_cart ⟨[], [(1, ⟨"B", none, 50, "c", none, true⟩)],
        [(0, ⟨"u3", [⟨5, 2⟩, ⟨1, 3⟩]⟩)], [], 2⟩ "u3").items =
      resolvedLines [(1, ⟨"B", none, 50, "c", none, true⟩)] [⟨5, 2⟩, ⟨1, 3⟩] ∧
    (get_cart ⟨[], [(1, ⟨"B", none, 50, "c", none, true⟩)],
        [(0, ⟨"u3", [⟨5, 2⟩, ⟨1, 3⟩]⟩)], [], 2⟩ "u3").total =
      ((get_cart ⟨[], [(1, ⟨"B", none, 50, "c", none, true⟩)],
        [(0, ⟨"u3", [⟨5, 2⟩, ⟨1, 3⟩]⟩)], [], 2⟩ "u3").items.map
          (fun ln => ln.price * (ln.quantity : ℚ))).sum ∧
    (∀ ln ∈ (get_cart ⟨[], [(1, ⟨"B", none, 50, "c", none, true⟩)],
        [(0, ⟨"u3", [⟨5, 2⟩, ⟨1, 3⟩]⟩)], [], 2⟩ "u3").items,
      (findProduct [(1, ⟨"B", none, 50, "c", none, true⟩)]
        ln.product_id).isSome = true) ∧
    (∀ it ∈ ([⟨5, 2⟩, ⟨1, 3⟩] : List CartItem),
      findProduct [(1, ⟨"B", none, 50, "c", none, true⟩)] it.product_id = none →
      ∀ ln ∈ (get_cart ⟨[], [(1, ⟨"B", none, 50, "c", none, true⟩)],
        [(0, ⟨"u3", [⟨5, 2⟩, ⟨1, 3⟩]⟩)], [], 2⟩ "u3").items,
        ln.product_id ≠ it.product_id) :=
  claim_C6 ⟨[], [(1, ⟨"B", none, 50, "c", none, true⟩)],
      [(0, ⟨"u3", [⟨5, 2⟩, ⟨1, 3⟩]⟩)], [], 2⟩ "u3" 0 ⟨"u3", [⟨5, 2⟩, ⟨1, 3⟩]⟩ rfl

/-- Claim C1: checkout on an existing cart with a non-empty item list, all of
whose items' products resolve in the current catalog, creates and persists an
Order whose total is the sum of current catalog price × quantity over the cart
items, returns that total with status "created", empties the cart's item list
in place, and a subsequent get_cart for that user returns the empty view. -/
theorem claim_C1 (s : Store) (uid : String) (cid : Nat) (cart : CartDoc)
    (hids : (s.carts.map Prod.fst).Nodup)
    (hfind : findCart s.carts uid = some (cid, cart))
    (hne : cart.items ≠ [])
    (hres : ∀ it ∈ cart.items,
      (findProduct s.products it.product_id).isSome = true) :
    ∃ s2 ord,
      checkout s uid = .ok (s2, s.nextId,
        (cart.items.map (fun it =>
          ((findProduct s.products it.product_id).elim 0 Product.price) *
            (it.quantity : ℚ))).sum, "created") ∧
      s2.orders = s.orders ++ [(s.nextId, ord)] ∧
      ord.user_id = uid ∧
      ord.total = (cart.items.map (fun it =>
          ((findProduct s.products it.product_id).elim 0 Product.price) *
            (it.quantity : ℚ))).sum ∧
      ord.status = "pending" ∧
      findCart s2.carts uid = some (cid, ⟨cart.user_id, []⟩) ∧
      get_cart s2 uid = ⟨[], 0⟩ := by
  have hempty : cart.items.isEmpty = false := List.isEmpty_eq_false.mpr hne
  have hck : checkout s uid = .ok
      (⟨s.users, s.products, updateCartItems s.carts cid [],
        s.orders ++ [(s.nextId,
          ⟨uid, (cart.items.foldl (checkoutStep s.products) ([], 0)).1,
            (cart.items.foldl (checkoutStep s.products) ([], 0)).2, "pending"⟩)],
        s.nextId + 1⟩,
       s.nextId, (cart.items.foldl (checkoutStep s.products) ([], 0)).2,
       "created") := by
    simp only [checkout, hfind, hempty, Bool.false_eq_true, if_false]
  have hT : (cart.items.foldl (checkoutStep s.products) ([], 0)).2 =
      (cart.items.map (fun it =>
        ((findProduct s.products it.product_id).elim 0 Product.price) *
          (it.quantity : ℚ))).sum := by
    rw [checkout_foldl s.products cart.items ([], 0)]
    simpa using resolvedSum_eq_map_sum s.products cart.items
  have hfc : findCart (updateCartItems s.carts cid []) uid =
      some (cid, ⟨cart.user_id, []⟩) :=
    findCart_updateCartItems s.carts uid cid cart [] hids hfind
  refine ⟨⟨s.users, s.products, updateCartItems s.carts cid [],
      s.orders ++ [(s.nextId,
        ⟨uid, (cart.items.foldl (checkoutStep s.products) ([], 0)).1,
          (cart.items.foldl (checkoutStep s.products) ([], 0)).2, "pending"⟩)],
      s.nextId + 1⟩,
    ⟨uid, (cart.items.foldl (checkoutStep s.products) ([], 0)).1,
      (cart.items.foldl (checkoutStep s.products) ([], 0)).2, "pending"⟩,
    ?_, rfl, rfl, hT, rfl, hfc, ?_⟩
  · rw [hck, hT]
  · simp only [get_cart]
    rw [hfc]
    rfl

/-- Witness for C1: one product at price 100000, one cart holding quantity 2
of it; checkout yields an order of total 200000 and clears the cart. -/
theorem claim_C1_witness :
    ∃ s2 ord,
      checkout ⟨[], [(0, ⟨"A", none, 100000, "c", none, true⟩)],
        [(1, ⟨"u1", [⟨0, 2⟩]⟩)], [], 2⟩ "u1" = .ok (s2, 2,
        (([⟨0, 2⟩] : List CartItem).map (fun it =>
          ((findProduct [(0, ⟨"A", none, 100000, "c", none, true⟩)]
            it.product_id).elim 0 Product.price) *
            (it.quantity : ℚ))).sum, "created") ∧
      s2.orders = [] ++ [(2, ord)] ∧
      ord.user_id = "u1" ∧
      ord.total = (([⟨0, 2⟩] : List CartItem).map (fun it =>
          ((findProduct [(0, ⟨"A", none, 100000, "c", none, true⟩)]
            it.product_id).elim 0 Product.price) *
            (it.quantity : ℚ))).sum ∧
      ord.status = "pending" ∧
      findCart s2.carts "u1" = some (1, ⟨"u1", []⟩) ∧
      get_cart s2 "u1" = ⟨[], 0⟩ :=
  claim_C1 ⟨[], [(0, ⟨"A", none, 100000, "c", none, true⟩)],
      [(1, ⟨"u1", [⟨0, 2⟩]⟩)], [], 2⟩ "u1" 1 ⟨"u1", [⟨0, 2⟩]⟩
    (by decide) rfl (by decide) (by decide)

/-- Claim C10: checkout on a non-empty cart none of whose items' products
resolve still succeeds: it persists an Order with an empty item list and total
0, returns that order id with total 0 and status "created", and clears the
cart's item list. -/
theorem claim_C10 (s : Store) (uid : String) (cid : Nat) (cart : CartDoc)
    (hids : (s.carts.map Prod.fst).Nodup)
    (hfind : findCart s.carts uid = some (cid, cart))
    (hne : cart.items ≠ [])
    (hnone : ∀ it ∈ cart.items, findProduct s.products it.product_id = none) :
    ∃ s2,
      checkout s uid = .ok (s2, s.nextId, 0, "created") ∧
      s2.orders = s.orders ++ [(s.nextId, ⟨uid, [], 0, "pending"⟩)] ∧
      findCart s2.carts uid = some (cid, ⟨cart.user_id, []⟩) ∧
      get_cart s2 uid = ⟨[], 0⟩ := by
  have hempty : cart.items.isEmpty = false := List.isEmpty_eq_false.mpr hne
  have hI : (cart.items.foldl (checkoutStep s.products) ([], 0)).1 = [] := by
    rw [checkout_foldl s.products cart.items ([], 0)]
    simp only [List.nil_append]
    rw [resolvedOrderItems, List.filterMap_eq_nil_iff]
    intro it hit
    rw [hnone it hit]
    rfl
  have hT : (cart.items.foldl (checkoutStep s.products) ([], 0)).2 = 0 := by
    rw [checkout_foldl s.products cart.items ([], 0)]
    have hz : (cart.items.filterMap (fun it =>
        (findProduct s.products it.product_id).map (fun prod =>
          prod.price * (it.quantity : ℚ)))) = [] := by
      rw [List.filterMap_eq_nil_iff]
      intro it hit
      rw [hnone it hit]
      rfl
    simp [resolvedSum, hz]
  have hck : checkout s uid = .ok
      (⟨s.users, s.products, updateCartItems s.carts cid [],
        s.orders ++ [(s.nextId,
          ⟨uid, (cart.items.foldl (checkoutStep s.products) ([], 0)).1,
            (cart.items.foldl (checkoutStep s.products) ([], 0)).2, "pending"⟩)],
        s.nextId + 1⟩,
       s.nextId, (cart.items.foldl (checkoutStep s.products) ([], 0)).2,
       "created") := by
    simp only [checkout, hfind, hempty, Bool.false_eq_true, if_false]
  rw [hI, hT] at hck
  have hfc : findCart (updateCartItems s.carts cid []) uid =
      some (cid, ⟨cart.user_id, []⟩) :=
    findCart_updateCartItems s.carts uid cid cart [] hids hfind
  refine ⟨⟨s.users, s.products, updateCartItems s.carts cid [],
      s.orders ++ [(s.nextId, ⟨uid, [], 0, "pending"⟩)], s.nextId + 1⟩,
    hck, rfl, hfc, ?_⟩
  simp only [get_cart]
  rw [hfc]
  rfl

/-- Witness for C10: a cart whose only item references the absent product 5;
checkout succeeds with total 0 and an empty order. -/
theorem claim_C10_witness :
    ∃ s2,
      checkout ⟨[], [], [(0, ⟨"u3", [⟨5, 2⟩]⟩)], [], 1⟩ "u3" =
        .ok (s2, 1, 0, "created") ∧
      s2.orders = [] ++ [(1, ⟨"u3", [], 0, "pending"⟩)] ∧
      findCart s2.carts "u3" = some (0, ⟨"u3", []⟩) ∧
      get_cart s2 "u3" = ⟨[], 0⟩ :=
  claim_C10 ⟨[], [], [(0, ⟨"u3", [⟨5, 2⟩]⟩)], [], 1⟩ "u3" 0
    ⟨"u3", [⟨5, 2⟩]⟩ (by decide) rfl (by decide) (by decide)

end Skincare
